import Mathlib

/-!
Shallow embedding of the TeensyELS leadscrew controller
(`src/lib/leadscrew/leadscrew.cpp`).

Machine integers are modelled as `ℤ`/`ℕ`; the single-precision `float`
quantities (`m_ratio`, `m_accumulator`, `m_currentPulseDelay`, the local
`accelChange`) as `ℚ` (exact arithmetic); the C++ `int ← float` conversion as
truncation toward zero.  The lead-axis position (`m_leadAxis->
getCurrentPosition()`) is passed as an explicit argument, and the pin
capability is a record carrying the pin levels plus a ghost log of the values
written to the direction pin.
-/

/-- C++ `int ← float` conversion: truncation toward zero (`Int.tdiv` is
t-division, and a `Rat` is stored in lowest terms). -/
def ratTrunc (q : ℚ) : ℤ := Int.tdiv q.num (q.den : ℤ)

/-- Modelled from the spec: `leadscrew.h` is not under `src/`.  The direction
enum is used arithmetically by the `.cpp` (`m_currentDirection *
getAccumulatorUnit()`, `m_accumulator += m_currentDirection`,
`m_currentPosition += m_currentDirection`), with the spec's convention
1 = RIGHT (advance), LEFT the opposite sign, UNKNOWN the rest state. -/
inductive LeadscrewDirection where
  | LEFT
  | UNKNOWN
  | RIGHT
deriving DecidableEq

/-- Numeric value of the direction when it enters arithmetic. -/
def LeadscrewDirection.toInt : LeadscrewDirection → ℤ
  | .LEFT => -1
  | .UNKNOWN => 0
  | .RIGHT => 1

inductive GlobalMotionMode where
  | DISABLED
  | JOG
  | ENABLED
deriving DecidableEq

inductive GlobalThreadSyncState where
  | UNSYNC
  | SYNC
deriving DecidableEq

inductive LeadscrewStopState where
  | UNSET
  | SET
deriving DecidableEq

/-- Argument enum of the stop-position operations. -/
inductive StopPosition where
  | LEFT
  | RIGHT
deriving DecidableEq

/-- Compile-time configuration constants of `config.h`, kept symbolic. -/
structure Config where
  initialPulseDelayUS : ℚ
  pulseDelayStepUS : ℚ
  jogPulseDelayUS : ℕ
  stepsPerMM : ℚ
  stepperPPR : ℚ
deriving DecidableEq

/-- The pin capability (`readStepPin`/`writeStepPin`/`writeDirPin`): current
pin levels plus a ghost log of the values written to the direction pin, in
order. -/
structure Pins where
  stepPin : ℕ
  dirPin : ℕ
  dirWrites : List ℕ
deriving DecidableEq

def writeDirPin (p : Pins) (v : ℕ) : Pins :=
  { p with dirPin := v, dirWrites := p.dirWrites ++ [v] }

/-- `Leadscrew::sendPulse`: if the step pin is high drive it low and report a
completed pulse, otherwise drive it high. -/
def sendPulse (p : Pins) : Bool × Pins :=
  if p.stepPin = 1 then (true, { p with stepPin := 0 })
  else (false, { p with stepPin := 1 })

structure GlobalState where
  motionMode : GlobalMotionMode
  threadSyncState : GlobalThreadSyncState
deriving DecidableEq

/-- The controller state (the `m_` fields of class `Leadscrew` that the
`.cpp` reads or writes). -/
structure Leadscrew where
  ratio : ℚ
  currentPosition : ℤ
  lastPulseMicros : ℕ
  lastFullPulseDurationMicros : ℕ
  currentPulseDelay : ℚ
  accumulator : ℚ
  cycleModulo : ℚ
  leftStopState : LeadscrewStopState
  rightStopState : LeadscrewStopState
  leftStopPosition : ℤ
  rightStopPosition : ℤ
  currentDirection : LeadscrewDirection
deriving DecidableEq

/-- `Leadscrew::getExpectedPosition`: `m_leadAxis->getCurrentPosition() *
m_ratio`, truncated by the `int` return type. -/
def getExpectedPosition (s : Leadscrew) (lead : ℤ) : ℤ :=
  ratTrunc ((lead : ℚ) * s.ratio)

/-- `Leadscrew::getPositionError`. -/
def getPositionError (s : Leadscrew) (lead : ℤ) : ℤ :=
  getExpectedPosition s lead - s.currentPosition

/-- `Leadscrew::setRatio`. -/
def setRatio (s : Leadscrew) (lead : ℤ) (r : ℚ) : Leadscrew :=
  { s with ratio := r, currentPosition := ratTrunc ((lead : ℚ) * r) }

/-- `Leadscrew::resetCurrentPosition`. -/
def resetCurrentPosition (s : Leadscrew) (lead : ℤ) : Leadscrew :=
  { s with currentPosition := ratTrunc ((lead : ℚ) * s.ratio) }

/-- `Leadscrew::setCurrentPosition`. -/
def setCurrentPosition (s : Leadscrew) (position : ℤ) : Leadscrew :=
  { s with currentPosition := position }

def INT32_MIN : ℤ := -(2 ^ 31)

def INT32_MAX : ℤ := 2 ^ 31 - 1

/-- `Leadscrew::unsetStopPosition`. -/
def unsetStopPosition (s : Leadscrew) : StopPosition → Leadscrew
  | .LEFT => { s with leftStopState := .UNSET }
  | .RIGHT => { s with rightStopState := .UNSET }

/-- `Leadscrew::setStopPosition`. -/
def setStopPosition (s : Leadscrew) (position : StopPosition) (stopPosition : ℤ) : Leadscrew :=
  match position with
  | .LEFT => { s with leftStopPosition := stopPosition, leftStopState := .SET }
  | .RIGHT => { s with rightStopPosition := stopPosition, rightStopState := .SET }

/-- `Leadscrew::getStopPosition`. -/
def getStopPosition (s : Leadscrew) : StopPosition → ℤ
  | .LEFT => if s.leftStopState = .SET then s.leftStopPosition else INT32_MIN
  | .RIGHT => if s.rightStopState = .SET then s.rightStopPosition else INT32_MAX

/-- `Leadscrew::getAccumulatorUnit`. -/
def getAccumulatorUnit (cfg : Config) (s : Leadscrew) : ℚ :=
  cfg.stepsPerMM * s.ratio / cfg.stepperPPR

/-- The local `accelChange` of `Leadscrew::update`:
`LEADSCREW_PULSE_DELAY_STEP_US * timeSinceLastPulse`, replaced by
`LEADSCREW_PULSE_DELAY_STEP_US` when that product is zero. -/
def accelChangeOf (cfg : Config) (t : ℕ) : ℚ :=
  if cfg.pulseDelayStepUS * (t : ℚ) = 0 then cfg.pulseDelayStepUS
  else cfg.pulseDelayStepUS * (t : ℚ)

/-- The two clamping `if`s at the end of the pulse branch of
`Leadscrew::update`: first to at most `LEADSCREW_INITIAL_PULSE_DELAY_US`,
then to at least `0`. -/
def clampDelay (cfg : Config) (d : ℚ) : ℚ :=
  let d1 := if d > cfg.initialPulseDelayUS then cfg.initialPulseDelayUS else d
  if d1 < 0 then 0 else d1

/-- The local `stoppingDistanceInPulses` of `Leadscrew::update` (an `int`,
hence truncated toward zero). -/
def stoppingDistance (cfg : Config) (delay accelChange : ℚ) : ℤ :=
  ratTrunc ((cfg.initialPulseDelayUS - delay) / accelChange)

/-- The whole mutable state one `update` tick touches. -/
structure World where
  ls : Leadscrew
  gs : GlobalState
  pins : Pins
deriving DecidableEq

/-- The deceleration-on-miss `if` of `Leadscrew::update` ("if we've missed
the schedule, decelerate"): `timeSinceLastPulse` is `ls1.lastPulseMicros`,
`accelChange` the already-computed local. -/
def missAdjust (cfg : Config) (ls1 : Leadscrew) (accelChange : ℚ) : Leadscrew :=
  if ((ls1.lastPulseMicros : ℕ) : ℚ) > ls1.currentPulseDelay + cfg.pulseDelayStepUS ∧
      ls1.currentPulseDelay + accelChange < cfg.initialPulseDelayUS then
    { ls1 with currentPulseDelay := ls1.currentPulseDelay + accelChange }
  else ls1

/-- The pulse-completion block of `Leadscrew::update` (the body of
`if (sendPulse())`): record the full pulse duration, reset the pulse timer,
add the accumulator unit, choose decelerate/accelerate via `shouldStop`,
clamp the delay, and consume a whole step when `|accumulator| > 1`.
`ls2`/`pins2` are the state after the miss adjustment and the pin state
after `sendPulse`. -/
def pulseBlock (cfg : Config) (w : World) (positionError : ℤ)
    (nextDirection : LeadscrewDirection) (accelChange : ℚ)
    (ls2 : Leadscrew) (pins2 : Pins) : World :=
  let ls3 :=
    { ls2 with
      lastFullPulseDurationMicros := ls2.lastPulseMicros,
      lastPulseMicros := 0,
      accumulator := ls2.accumulator +
        (ls2.currentDirection.toInt : ℚ) * getAccumulatorUnit cfg ls2 }
  let sd : ℤ := stoppingDistance cfg ls3.currentPulseDelay accelChange
  let ls4 :=
    if |positionError| - sd ≤ 0 ∨ nextDirection ≠ ls3.currentDirection then
      { ls3 with currentPulseDelay := ls3.currentPulseDelay + accelChange }
    else
      { ls3 with currentPulseDelay := ls3.currentPulseDelay - accelChange }
  let ls5 := { ls4 with currentPulseDelay := clampDelay cfg ls4.currentPulseDelay }
  let ls6 :=
    if ls5.accumulator > (1 : ℚ) ∨ ls5.accumulator < (-1 : ℚ) then
      { ls5 with
        accumulator := ls5.accumulator + (ls5.currentDirection.toInt : ℚ),
        currentPosition := ls5.currentPosition + ls5.currentDirection.toInt }
    else ls5
  { w with ls := ls6, pins := pins2 }

/-- The tail of the ENABLED case of `Leadscrew::update`, from the
`timeSinceLastPulse` read (line "minor bug in testing ...") to the end of the
case: deceleration on a missed schedule, the (unreachable there) SYNC
publish, the schedule test, and the pulse-completion block.  `ls1`/`pins1`
are the controller state and pins after the direction-latch `if`s. -/
def enabledTail (cfg : Config) (w : World) (positionError : ℤ)
    (nextDirection : LeadscrewDirection) (ls1 : Leadscrew) (pins1 : Pins) : World :=
  let timeSinceLastPulse : ℕ := ls1.lastPulseMicros
  let accelChange : ℚ := accelChangeOf cfg timeSinceLastPulse
  let ls2 := missAdjust cfg ls1 accelChange
  if positionError = 0 then
    let gs2 := { w.gs with threadSyncState := GlobalThreadSyncState.SYNC }
    { w with ls := ls2, gs := gs2, pins := pins1 }
  else if (timeSinceLastPulse : ℚ) < ls2.currentPulseDelay then
    { w with ls := ls2, pins := pins1 }
  else
    let pr := sendPulse pins1
    if pr.1 then pulseBlock cfg w positionError nextDirection accelChange ls2 pr.2
    else { w with ls := ls2, pins := pr.2 }

/-- `Leadscrew::update`, one tick.  `lead` is the lead-axis position read
during this tick.  The translation is branch-for-branch: note the second
`positionError == 0` test (the SYNC publish, inside `enabledTail`), kept
exactly where the source has it, under the branch that already requires
`positionError ≠ 0`. -/
def update (cfg : Config) (lead : ℤ) (w : World) : World :=
  let positionError := getPositionError w.ls lead
  match w.gs.motionMode with
  | .DISABLED => { w with ls := resetCurrentPosition w.ls lead }
  | .JOG =>
    if w.ls.lastPulseMicros < cfg.jogPulseDelayUS then w
    else
      let gs1 := if positionError = 0 then
          { w.gs with motionMode := GlobalMotionMode.DISABLED } else w.gs
      { w with gs := gs1, pins := (sendPulse w.pins).2 }
  | .ENABLED =>
    if positionError = 0 then
      { w with ls := { w.ls with currentDirection := LeadscrewDirection.UNKNOWN } }
    else
      let nextDirection : LeadscrewDirection :=
        if positionError > 0 then .RIGHT else .LEFT
      let pins1 :=
        if w.ls.currentPulseDelay = cfg.initialPulseDelayUS then
          writeDirPin w.pins (if positionError > 0 then 1 else 0)
        else w.pins
      let ls1 :=
        if w.ls.currentPulseDelay = cfg.initialPulseDelayUS then
          { w.ls with currentDirection := nextDirection, lastPulseMicros := 0 }
        else w.ls
      enabledTail cfg w positionError nextDirection ls1 pins1

/-- The constructor `Leadscrew::Leadscrew`.  `initialMicros` is the
`micros()` sample taken at construction; `memL`/`memR` model the two
stop-position fields the constructor leaves uninitialized. -/
def construct (cfg : Config) (initialMicros : ℕ) (memL memR : ℤ) : Leadscrew :=
  { ratio := 1
    currentPosition := 0
    lastPulseMicros := initialMicros
    lastFullPulseDurationMicros := 0
    currentPulseDelay := cfg.initialPulseDelayUS
    accumulator := 0
    cycleModulo := cfg.stepperPPR
    leftStopState := .UNSET
    rightStopState := .UNSET
    leftStopPosition := memL
    rightStopPosition := memR
    currentDirection := .UNKNOWN }

/-- Modelled from the spec: the tick driver and the UI/CLI callers are not
under `src/`.  One run interleaves `update` ticks — between ticks the
microsecond counter behind `lastPulseMicros` advances by some `elapsed`
(spec §3: it "monotonically increases until reset on pulse completion";
spec §5: one tick is atomic) — with the UI calls listed in spec §6. -/
inductive Event where
  | tick (elapsed : ℕ) (lead : ℤ)
  | uiSetMode (m : GlobalMotionMode)
  | uiSetRatio (lead : ℤ) (r : ℚ)
  | uiSetStop (side : StopPosition) (p : ℤ)
  | uiUnsetStop (side : StopPosition)
  | uiSetCurrentPosition (p : ℤ)

def stepEvent (cfg : Config) (w : World) : Event → World
  | .tick elapsed lead =>
    update cfg lead
      { w with ls := { w.ls with lastPulseMicros := w.ls.lastPulseMicros + elapsed } }
  | .uiSetMode m => { w with gs := { w.gs with motionMode := m } }
  | .uiSetRatio lead r => { w with ls := setRatio w.ls lead r }
  | .uiSetStop side p => { w with ls := setStopPosition w.ls side p }
  | .uiUnsetStop side => { w with ls := unsetStopPosition w.ls side }
  | .uiSetCurrentPosition p => { w with ls := setCurrentPosition w.ls p }

def runEvents (cfg : Config) (w : World) (events : List Event) : World :=
  events.foldl (stepEvent cfg) w

/-- Boot state: freshly constructed controller, mode DISABLED, UNSYNC
(spec §4: "Initial state is DISABLED, UNSYNC").  The initial pin levels are
parameters. -/
def initialWorld (cfg : Config) (initialMicros : ℕ) (memL memR : ℤ)
    (step0 dir0 : ℕ) : World :=
  { ls := construct cfg initialMicros memL memR
    gs := { motionMode := .DISABLED, threadSyncState := .UNSYNC }
    pins := { stepPin := step0, dirPin := dir0, dirWrites := [] } }

/-! ## Concrete configurations and worlds used by the witnesses and counterexamples -/

def cfgC5 : Config :=
  { initialPulseDelayUS := 1000, pulseDelayStepUS := 10, jogPulseDelayUS := 500,
    stepsPerMM := 100, stepperPPR := 200 }

def wC5 : World :=
  { ls := { ratio := Rat.divInt 1 2, currentPosition := 42, lastPulseMicros := 77,
            lastFullPulseDurationMicros := 0, currentPulseDelay := 1000, accumulator := 0,
            cycleModulo := 200, leftStopState := .UNSET, rightStopState := .UNSET,
            leftStopPosition := 0, rightStopPosition := 0, currentDirection := .UNKNOWN }
    gs := { motionMode := .DISABLED, threadSyncState := .UNSYNC }
    pins := { stepPin := 0, dirPin := 0, dirWrites := [] } }

def cfgC10 : Config :=
  { initialPulseDelayUS := 1000, pulseDelayStepUS := 10, jogPulseDelayUS := 500,
    stepsPerMM := 100, stepperPPR := 200 }

def wC10 : World :=
  { ls := { ratio := 1, currentPosition := 11, lastPulseMicros := 600,
            lastFullPulseDurationMicros := 0, currentPulseDelay := 1000, accumulator := 0,
            cycleModulo := 200, leftStopState := .UNSET, rightStopState := .UNSET,
            leftStopPosition := 0, rightStopPosition := 0, currentDirection := .UNKNOWN }
    gs := { motionMode := .JOG, threadSyncState := .UNSYNC }
    pins := { stepPin := 0, dirPin := 0, dirWrites := [] } }

def cfgC4 : Config :=
  { initialPulseDelayUS := 1000, pulseDelayStepUS := 10, jogPulseDelayUS := 500,
    stepsPerMM := 100, stepperPPR := 200 }

def wC4 : World :=
  { ls := { ratio := 1, currentPosition := 0, lastPulseMicros := 600,
            lastFullPulseDurationMicros := 0, currentPulseDelay := 1000, accumulator := 0,
            cycleModulo := 200, leftStopState := .UNSET, rightStopState := .UNSET,
            leftStopPosition := 0, rightStopPosition := 0, currentDirection := .UNKNOWN }
    gs := { motionMode := .JOG, threadSyncState := .UNSYNC }
    pins := { stepPin := 0, dirPin := 0, dirWrites := [] } }

def wC4b : World :=
  { wC4 with ls := { wC4.ls with currentPosition := 1 } }

def cfgC1 : Config :=
  { initialPulseDelayUS := 1000, pulseDelayStepUS := 10, jogPulseDelayUS := 500,
    stepsPerMM := 100, stepperPPR := 200 }

def wC1 : World :=
  { ls := { ratio := 1, currentPosition := 0, lastPulseMicros := 2000,
            lastFullPulseDurationMicros := 0, currentPulseDelay := 1000, accumulator := 0,
            cycleModulo := 200, leftStopState := .UNSET, rightStopState := .UNSET,
            leftStopPosition := 0, rightStopPosition := 0, currentDirection := .RIGHT }
    gs := { motionMode := .ENABLED, threadSyncState := .UNSYNC }
    pins := { stepPin := 0, dirPin := 1, dirWrites := [] } }

def cfgC2 : Config :=
  { initialPulseDelayUS := 1000, pulseDelayStepUS := 10, jogPulseDelayUS := 500,
    stepsPerMM := 100, stepperPPR := 200 }

def eventsC2 : List Event :=
  [.uiSetMode .ENABLED, .tick 1000 5, .tick 1000 5, .uiSetRatio 5 2,
   .tick 2000 7, .uiSetMode .JOG, .tick 600 7, .uiSetMode .DISABLED, .tick 5 9]

def cfgC3 : Config :=
  { initialPulseDelayUS := 1000, pulseDelayStepUS := 10, jogPulseDelayUS := 500,
    stepsPerMM := 100, stepperPPR := 200 }

def wC3 : World :=
  { ls := { ratio := 1, currentPosition := 0, lastPulseMicros := 500,
            lastFullPulseDurationMicros := 0, currentPulseDelay := 500, accumulator := 0,
            cycleModulo := 200, leftStopState := .UNSET, rightStopState := .UNSET,
            leftStopPosition := 0, rightStopPosition := 0, currentDirection := .RIGHT }
    gs := { motionMode := .ENABLED, threadSyncState := .UNSYNC }
    pins := { stepPin := 1, dirPin := 1, dirWrites := [] } }

def cfgC7 : Config :=
  { initialPulseDelayUS := 1000, pulseDelayStepUS := 10, jogPulseDelayUS := 500,
    stepsPerMM := 100, stepperPPR := 200 }

def wC7 : World :=
  { ls := { ratio := 1, currentPosition := 0, lastPulseMicros := 0,
            lastFullPulseDurationMicros := 0, currentPulseDelay := 0, accumulator := 0,
            cycleModulo := 200, leftStopState := .UNSET, rightStopState := .UNSET,
            leftStopPosition := 0, rightStopPosition := 0, currentDirection := .RIGHT }
    gs := { motionMode := .ENABLED, threadSyncState := .UNSYNC }
    pins := { stepPin := 1, dirPin := 1, dirWrites := [] } }

def cfgC8 : Config :=
  { initialPulseDelayUS := 1000, pulseDelayStepUS := 10, jogPulseDelayUS := 500,
    stepsPerMM := 100, stepperPPR := 200 }

def wC8 : World :=
  { ls := { ratio := 1, currentPosition := 0, lastPulseMicros := 777,
            lastFullPulseDurationMicros := 0, currentPulseDelay := 1000, accumulator := 0,
            cycleModulo := 200, leftStopState := .UNSET, rightStopState := .UNSET,
            leftStopPosition := 0, rightStopPosition := 0, currentDirection := .UNKNOWN }
    gs := { motionMode := .ENABLED, threadSyncState := .UNSYNC }
    pins := { stepPin := 0, dirPin := 0, dirWrites := [] } }

/-! ## Branch characterizations of `update` -/

lemma update_disabled (cfg : Config) (lead : ℤ) (w : World)
    (hm : w.gs.motionMode = .DISABLED) :
    update cfg lead w = { w with ls := resetCurrentPosition w.ls lead } := by
  simp only [update, hm]

lemma update_jog_early (cfg : Config) (lead : ℤ) (w : World)
    (hm : w.gs.motionMode = .JOG) (ht : w.ls.lastPulseMicros < cfg.jogPulseDelayUS) :
    update cfg lead w = w := by
  simp only [update, hm, if_pos ht]

lemma update_jog_due (cfg : Config) (lead : ℤ) (w : World)
    (hm : w.gs.motionMode = .JOG) (ht : ¬ w.ls.lastPulseMicros < cfg.jogPulseDelayUS) :
    update cfg lead w =
      { w with
        gs := if getPositionError w.ls lead = 0 then
            { w.gs with motionMode := GlobalMotionMode.DISABLED } else w.gs,
        pins := (sendPulse w.pins).2 } := by
  simp only [update, hm, if_neg ht]

lemma update_enabled_zero (cfg : Config) (lead : ℤ) (w : World)
    (hm : w.gs.motionMode = .ENABLED) (hz : getPositionError w.ls lead = 0) :
    update cfg lead w =
      { w with ls := { w.ls with currentDirection := LeadscrewDirection.UNKNOWN } } := by
  simp only [update, hm, if_pos hz]

lemma update_enabled_latch (cfg : Config) (lead : ℤ) (w : World)
    (hm : w.gs.motionMode = .ENABLED) (hz : getPositionError w.ls lead ≠ 0)
    (hd : w.ls.currentPulseDelay = cfg.initialPulseDelayUS)
    (hI : 0 < cfg.initialPulseDelayUS) (hS : 0 ≤ cfg.pulseDelayStepUS) :
    update cfg lead w =
      { w with
        ls := { w.ls with
          currentDirection :=
            if getPositionError w.ls lead > 0 then LeadscrewDirection.RIGHT
            else LeadscrewDirection.LEFT,
          lastPulseMicros := 0 },
        pins := writeDirPin w.pins (if getPositionError w.ls lead > 0 then 1 else 0) } := by
  have h1 : ¬ ((0:ℚ) > cfg.initialPulseDelayUS + cfg.pulseDelayStepUS) := by
    push_neg
    linarith
  have h2 : (0:ℚ) < cfg.initialPulseDelayUS := hI
  simp only [update, hm, if_neg hz, hd]
  simp [enabledTail, missAdjust, h1, hz, h2]

lemma update_jog_ls (cfg : Config) (lead : ℤ) (w : World)
    (hm : w.gs.motionMode = .JOG) :
    (update cfg lead w).ls = w.ls := by
  by_cases ht : w.ls.lastPulseMicros < cfg.jogPulseDelayUS
  · rw [update_jog_early cfg lead w hm ht]
  · rw [update_jog_due cfg lead w hm ht]

lemma accelChangeOf_nonneg (cfg : Config) (t : ℕ) (hS : 0 ≤ cfg.pulseDelayStepUS) :
    0 ≤ accelChangeOf cfg t := by
  unfold accelChangeOf
  split_ifs
  · exact hS
  · positivity

lemma clampDelay_range (cfg : Config) (d : ℚ) (h : 0 ≤ cfg.initialPulseDelayUS) :
    0 ≤ clampDelay cfg d ∧ clampDelay cfg d ≤ cfg.initialPulseDelayUS := by
  simp only [clampDelay]
  split_ifs <;> constructor <;> linarith

/-- Accumulator and pulse delay are untouched from the constructed state: at
rest (`currentPulseDelay == LEADSCREW_INITIAL_PULSE_DELAY_US`) the ENABLED
branch's latch resets `lastPulseMicros`, so the schedule test
`timeSinceLastPulse < m_currentPulseDelay` breaks before `sendPulse`, and no
other branch or UI call writes either field. -/
def StandstillInv (cfg : Config) (w : World) : Prop :=
  w.ls.accumulator = 0 ∧ w.ls.currentPulseDelay = cfg.initialPulseDelayUS

lemma standstill_update (cfg : Config) (lead : ℤ) (w : World)
    (hI : 0 < cfg.initialPulseDelayUS) (hS : 0 ≤ cfg.pulseDelayStepUS)
    (h : StandstillInv cfg w) : StandstillInv cfg (update cfg lead w) := by
  obtain ⟨ha, hdel⟩ := h
  rcases hmode : w.gs.motionMode with _ | _ | _
  · rw [update_disabled cfg lead w hmode]
    exact ⟨ha, hdel⟩
  · have hls := update_jog_ls cfg lead w hmode
    exact ⟨by rw [hls]; exact ha, by rw [hls]; exact hdel⟩
  · by_cases hz : getPositionError w.ls lead = 0
    · rw [update_enabled_zero cfg lead w hmode hz]
      exact ⟨ha, hdel⟩
    · rw [update_enabled_latch cfg lead w hmode hz hdel hI hS]
      exact ⟨ha, hdel⟩

lemma standstill_stepEvent (cfg : Config) (w : World) (e : Event)
    (hI : 0 < cfg.initialPulseDelayUS) (hS : 0 ≤ cfg.pulseDelayStepUS)
    (h : StandstillInv cfg w) : StandstillInv cfg (stepEvent cfg w e) := by
  obtain ⟨ha, hdel⟩ := h
  cases e with
  | tick elapsed lead =>
    exact standstill_update cfg lead _ hI hS ⟨ha, hdel⟩
  | uiSetMode m => exact ⟨ha, hdel⟩
  | uiSetRatio lead r => exact ⟨ha, hdel⟩
  | uiSetStop side p =>
    cases side <;> exact ⟨ha, hdel⟩
  | uiUnsetStop side =>
    cases side <;> exact ⟨ha, hdel⟩
  | uiSetCurrentPosition p => exact ⟨ha, hdel⟩

lemma standstill_run (cfg : Config) (events : List Event) (w : World)
    (hI : 0 < cfg.initialPulseDelayUS) (hS : 0 ≤ cfg.pulseDelayStepUS)
    (h : StandstillInv cfg w) : StandstillInv cfg (runEvents cfg w events) := by
  induction events generalizing w with
  | nil => exact h
  | cons e es ih => exact ih _ (standstill_stepEvent cfg w e hI hS h)

lemma ratTrunc_intCast (n : ℤ) : ratTrunc ((n : ℤ) : ℚ) = n := by
  simp [ratTrunc]

lemma getPositionError_ratio_one (s : Leadscrew) (lead : ℤ) (h : s.ratio = 1) :
    getPositionError s lead = lead - s.currentPosition := by
  simp [getPositionError, getExpectedPosition, h, ratTrunc_intCast]

/-! ## The claims -/

/-- C9: after `setStopPosition(s, p)`, `getStopPosition(s)` returns `p`;
after `unsetStopPosition(s)`, `getStopPosition(LEFT)` returns `INT_MIN` and
`getStopPosition(RIGHT)` returns `INT_MAX` — the unset-stop query is answered
with a sentinel value, never an error. -/
theorem c9_stop_positions (s : Leadscrew) (side : StopPosition) (p : ℤ) :
    getStopPosition (setStopPosition s side p) side = p ∧
    getStopPosition (unsetStopPosition s .LEFT) .LEFT = INT32_MIN ∧
    getStopPosition (unsetStopPosition s .RIGHT) .RIGHT = INT32_MAX := by
  refine ⟨?_, ?_, ?_⟩ <;> cases side <;>
    simp [getStopPosition, setStopPosition, unsetStopPosition]

/-- C6: immediately after `setRatio(r)` (lead-axis position unchanged),
`getPositionError()` returns 0, because `setRatio` recomputes
`currentPosition` from `leadPosition * r` with the same truncation
that `getExpectedPosition` uses. -/
theorem c6_set_ratio_zero_error (s : Leadscrew) (lead : ℤ) (r : ℚ) :
    getPositionError (setRatio s lead r) lead = 0 ∧
    (setRatio s lead r).currentPosition = ratTrunc ((lead : ℚ) * r) ∧
    (setRatio s lead r).ratio = r := by
  refine ⟨?_, rfl, rfl⟩
  simp [getPositionError, getExpectedPosition, setRatio]

/-- C5: a DISABLED tick sets `currentPosition` to `leadPosition * ratio`
truncated toward zero, leaves the pins untouched (no pulse), and
`getPositionError()` returns 0 immediately afterwards. -/
theorem c5_disabled_resync (cfg : Config) (lead : ℤ) (w : World)
    (hm : w.gs.motionMode = .DISABLED) :
    (update cfg lead w).ls.currentPosition = ratTrunc ((lead : ℚ) * w.ls.ratio) ∧
    (update cfg lead w).pins = w.pins ∧
    getPositionError (update cfg lead w).ls lead = 0 := by
  rw [update_disabled cfg lead w hm]
  refine ⟨rfl, rfl, ?_⟩
  simp [getPositionError, getExpectedPosition, resetCurrentPosition]

theorem c5_disabled_resync_witness :
    (update cfgC5 (-7) wC5).ls.currentPosition = -3 ∧
    (update cfgC5 (-7) wC5).pins = wC5.pins ∧
    getPositionError (update cfgC5 (-7) wC5).ls (-7) = 0 := by
  obtain ⟨h1, h2, h3⟩ := c5_disabled_resync cfgC5 (-7) wC5 rfl
  refine ⟨?_, h2, h3⟩
  rw [h1, show wC5.ls.ratio = Rat.divInt 1 2 from rfl]
  have hq : (((-7 : ℤ) : ℚ)) * Rat.divInt 1 2 = Rat.divInt (-7) 2 := by
    rw [Rat.divInt_eq_div, Rat.divInt_eq_div]
    push_cast
    ring
  rw [hq]
  decide

/-- C10: a JOG-mode tick leaves `currentPosition`, `accumulator`,
`currentPulseDelay`, `currentDirection` and `ratio` unchanged: a jog pulse
may toggle the step pin but is never counted in `currentPosition`. -/
theorem c10_jog_frame (cfg : Config) (lead : ℤ) (w : World)
    (hm : w.gs.motionMode = .JOG) :
    (update cfg lead w).ls.currentPosition = w.ls.currentPosition ∧
    (update cfg lead w).ls.accumulator = w.ls.accumulator ∧
    (update cfg lead w).ls.currentPulseDelay = w.ls.currentPulseDelay ∧
    (update cfg lead w).ls.currentDirection = w.ls.currentDirection ∧
    (update cfg lead w).ls.ratio = w.ls.ratio := by
  have h := update_jog_ls cfg lead w hm
  exact ⟨by rw [h], by rw [h], by rw [h], by rw [h], by rw [h]⟩

theorem c10_jog_frame_witness :
    (update cfgC10 3 wC10).ls.currentPosition = 11 ∧
    (update cfgC10 3 wC10).ls.accumulator = 0 ∧
    (update cfgC10 3 wC10).ls.currentPulseDelay = 1000 ∧
    (update cfgC10 3 wC10).ls.currentDirection = LeadscrewDirection.UNKNOWN ∧
    (update cfgC10 3 wC10).ls.ratio = 1 :=
  c10_jog_frame cfgC10 3 wC10 rfl

/-- C4 counterexample: a JOG tick that is past `JOG_PULSE_DELAY_US` and finds
`positionError == 0` transitions to DISABLED but STILL attempts `sendPulse()`
(the step pin is driven from 0 to 1): there is no early return after the
mode transition, contradicting "no pulse is attempted on the tick that finds
the jog target reached". -/
theorem c4_jog_counterexample :
    getPositionError wC4.ls 0 = 0 ∧
    ¬ wC4.ls.lastPulseMicros < cfgC4.jogPulseDelayUS ∧
    wC4.pins.stepPin = 0 ∧
    (update cfgC4 0 wC4).gs.motionMode = GlobalMotionMode.DISABLED ∧
    (update cfgC4 0 wC4).pins.stepPin = 1 := by
  have hz : getPositionError wC4.ls 0 = 0 := by
    rw [getPositionError_ratio_one wC4.ls 0 rfl]
    decide
  have hdue := update_jog_due cfgC4 0 wC4 rfl (by decide)
  refine ⟨hz, by decide, rfl, ?_, ?_⟩
  · rw [hdue]
    simp [hz]
  · rw [hdue]
    simp [sendPulse, wC4]

/-- C4 (amended): in JOG mode, a tick with `lastPulseMicros <
JOG_PULSE_DELAY_US` returns without action; otherwise the tick transitions
`motionMode` to DISABLED exactly when `positionError == 0`, and in either
case attempts `sendPulse()` — including on the tick that finds the jog
target reached. -/
theorem c4_jog_behavior (cfg : Config) (lead : ℤ) (w : World)
    (hm : w.gs.motionMode = .JOG) :
    (w.ls.lastPulseMicros < cfg.jogPulseDelayUS → update cfg lead w = w) ∧
    (¬ w.ls.lastPulseMicros < cfg.jogPulseDelayUS →
      (update cfg lead w).gs.motionMode =
        (if getPositionError w.ls lead = 0 then GlobalMotionMode.DISABLED
         else GlobalMotionMode.JOG) ∧
      (update cfg lead w).pins = (sendPulse w.pins).2 ∧
      (update cfg lead w).ls = w.ls) := by
  constructor
  · intro ht
    exact update_jog_early cfg lead w hm ht
  · intro ht
    rw [update_jog_due cfg lead w hm ht]
    refine ⟨?_, rfl, rfl⟩
    split_ifs <;> simp [hm]

theorem c4_jog_behavior_witness :
    (update cfgC4 5 wC4b).gs.motionMode = GlobalMotionMode.JOG ∧
    (update cfgC4 5 wC4b).pins = (sendPulse wC4b.pins).2 ∧
    (update cfgC4 5 wC4b).ls = wC4b.ls := by
  obtain ⟨-, h2⟩ := c4_jog_behavior cfgC4 5 wC4b rfl
  obtain ⟨hmode, hpins, hls⟩ := h2 (by decide)
  have hz : ¬ getPositionError wC4b.ls 5 = 0 := by
    rw [getPositionError_ratio_one wC4b.ls 5 rfl]
    decide
  rw [hmode, if_neg hz]
  exact ⟨rfl, hpins, hls⟩

/-- C1: an ENABLED tick with `positionError == 0` sets `currentDirection` to
UNKNOWN and returns without a pulse, but it does NOT publish
`threadSyncState := SYNC`: the zero-error case breaks out of the switch at
the direction test, and the later `positionError == 0` SYNC publish in the
same case is unreachable, so `threadSyncState` is left unchanged. -/
theorem c1_enabled_zero_error (cfg : Config) (lead : ℤ) (w : World)
    (hm : w.gs.motionMode = .ENABLED) (hz : getPositionError w.ls lead = 0) :
    (update cfg lead w).gs.threadSyncState = w.gs.threadSyncState ∧
    (update cfg lead w).ls.currentDirection = LeadscrewDirection.UNKNOWN ∧
    (update cfg lead w).pins = w.pins := by
  rw [update_enabled_zero cfg lead w hm hz]
  exact ⟨rfl, rfl, rfl⟩

theorem c1_enabled_zero_error_witness :
    (update cfgC1 0 wC1).gs.threadSyncState = GlobalThreadSyncState.UNSYNC ∧
    (update cfgC1 0 wC1).ls.currentDirection = LeadscrewDirection.UNKNOWN ∧
    (update cfgC1 0 wC1).pins = wC1.pins := by
  have hz : getPositionError wC1.ls 0 = 0 := by
    rw [getPositionError_ratio_one wC1.ls 0 rfl]
    decide
  exact c1_enabled_zero_error cfgC1 0 wC1 rfl hz

/-- C2: over every finite run of ticks and UI calls from the constructed
state, `|accumulator|` stays below 2.  (From the constructed state
`currentPulseDelay` never leaves `LEADSCREW_INITIAL_PULSE_DELAY_US`: while at
rest the ENABLED branch re-zeroes `lastPulseMicros` before the schedule test,
so no pulse ever completes and the accumulator stays exactly 0.) -/
theorem c2_accumulator_bounded (cfg : Config) (m0 : ℕ) (memL memR : ℤ)
    (step0 dir0 : ℕ) (events : List Event)
    (hI : 0 < cfg.initialPulseDelayUS) (hS : 0 ≤ cfg.pulseDelayStepUS) :
    |(runEvents cfg (initialWorld cfg m0 memL memR step0 dir0) events).ls.accumulator| < 2 := by
  have h := standstill_run cfg events (initialWorld cfg m0 memL memR step0 dir0) hI hS
    ⟨rfl, rfl⟩
  rw [h.1]
  norm_num

theorem c2_accumulator_bounded_witness :
    |(runEvents cfgC2 (initialWorld cfgC2 123 0 0 0 1) eventsC2).ls.accumulator| < 2 :=
  c2_accumulator_bounded cfgC2 123 0 0 0 1 eventsC2 (by decide) (by decide)

lemma update_enabled_ne (cfg : Config) (lead : ℤ) (w : World)
    (hm : w.gs.motionMode = .ENABLED) (hz : getPositionError w.ls lead ≠ 0) :
    update cfg lead w =
      enabledTail cfg w (getPositionError w.ls lead)
        (if getPositionError w.ls lead > 0 then LeadscrewDirection.RIGHT
         else LeadscrewDirection.LEFT)
        (if w.ls.currentPulseDelay = cfg.initialPulseDelayUS then
          { w.ls with
            currentDirection :=
              if getPositionError w.ls lead > 0 then LeadscrewDirection.RIGHT
              else LeadscrewDirection.LEFT,
            lastPulseMicros := 0 }
         else w.ls)
        (if w.ls.currentPulseDelay = cfg.initialPulseDelayUS then
          writeDirPin w.pins (if getPositionError w.ls lead > 0 then 1 else 0)
         else w.pins) := by
  simp only [update, hm, if_neg hz]

lemma missAdjust_delay_range (cfg : Config) (ls1 : Leadscrew) (A : ℚ)
    (h0 : 0 ≤ ls1.currentPulseDelay)
    (h1 : ls1.currentPulseDelay ≤ cfg.initialPulseDelayUS) (hA : 0 ≤ A) :
    0 ≤ (missAdjust cfg ls1 A).currentPulseDelay ∧
    (missAdjust cfg ls1 A).currentPulseDelay ≤ cfg.initialPulseDelayUS := by
  simp only [missAdjust]
  split_ifs with h
  · constructor <;> (dsimp only; linarith [h.2])
  · exact ⟨h0, h1⟩

lemma pulseBlock_delay (cfg : Config) (w : World) (positionError : ℤ)
    (nextDirection : LeadscrewDirection) (A : ℚ) (ls2 : Leadscrew) (pins2 : Pins) :
    (pulseBlock cfg w positionError nextDirection A ls2 pins2).ls.currentPulseDelay =
      clampDelay cfg
        (if |positionError| - stoppingDistance cfg ls2.currentPulseDelay A ≤ 0 ∨
            nextDirection ≠ ls2.currentDirection then
          ls2.currentPulseDelay + A
        else ls2.currentPulseDelay - A) := by
  simp only [pulseBlock]
  split_ifs <;> rfl

lemma enabledTail_ls_cases (cfg : Config) (w : World) (positionError : ℤ)
    (nextDirection : LeadscrewDirection) (ls1 : Leadscrew) (pins1 : Pins) :
    (enabledTail cfg w positionError nextDirection ls1 pins1).ls =
        missAdjust cfg ls1 (accelChangeOf cfg ls1.lastPulseMicros) ∨
    (enabledTail cfg w positionError nextDirection ls1 pins1).ls =
        (pulseBlock cfg w positionError nextDirection
          (accelChangeOf cfg ls1.lastPulseMicros)
          (missAdjust cfg ls1 (accelChangeOf cfg ls1.lastPulseMicros))
          (sendPulse pins1).2).ls := by
  simp only [enabledTail]
  split_ifs
  · left; rfl
  · left; rfl
  · right; rfl
  · left; rfl

lemma enabledTail_delay_range (cfg : Config) (w : World) (positionError : ℤ)
    (nextDirection : LeadscrewDirection) (ls1 : Leadscrew) (pins1 : Pins)
    (h0 : 0 ≤ ls1.currentPulseDelay)
    (h1 : ls1.currentPulseDelay ≤ cfg.initialPulseDelayUS)
    (hS : 0 ≤ cfg.pulseDelayStepUS) :
    0 ≤ (enabledTail cfg w positionError nextDirection ls1 pins1).ls.currentPulseDelay ∧
    (enabledTail cfg w positionError nextDirection ls1 pins1).ls.currentPulseDelay ≤
      cfg.initialPulseDelayUS := by
  have hIni : (0:ℚ) ≤ cfg.initialPulseDelayUS := le_trans h0 h1
  have hA := accelChangeOf_nonneg cfg ls1.lastPulseMicros hS
  rcases enabledTail_ls_cases cfg w positionError nextDirection ls1 pins1 with h | h <;>
    rw [h]
  · exact missAdjust_delay_range cfg ls1 _ h0 h1 hA
  · rw [pulseBlock_delay]
    exact clampDelay_range cfg _ hIni

/-- C3: if `currentPulseDelay` lies in `[0, INITIAL_PULSE_DELAY_US]` before a
tick then it does after, on every branch (DISABLED, JOG, ENABLED; including
the deceleration-on-miss adjustment, which only fires when the adjusted delay
stays below the initial delay, and the post-pulse adjustment, which is
clamped to the interval). -/
theorem c3_pulse_delay_range (cfg : Config) (lead : ℤ) (w : World)
    (h0 : 0 ≤ w.ls.currentPulseDelay)
    (h1 : w.ls.currentPulseDelay ≤ cfg.initialPulseDelayUS)
    (hS : 0 ≤ cfg.pulseDelayStepUS) :
    0 ≤ (update cfg lead w).ls.currentPulseDelay ∧
    (update cfg lead w).ls.currentPulseDelay ≤ cfg.initialPulseDelayUS := by
  rcases hmode : w.gs.motionMode with _ | _ | _
  · rw [update_disabled cfg lead w hmode]
    exact ⟨h0, h1⟩
  · have h := update_jog_ls cfg lead w hmode
    exact ⟨by rw [h]; exact h0, by rw [h]; exact h1⟩
  · by_cases hz : getPositionError w.ls lead = 0
    · rw [update_enabled_zero cfg lead w hmode hz]
      exact ⟨h0, h1⟩
    · rw [update_enabled_ne cfg lead w hmode hz]
      exact enabledTail_delay_range cfg w _ _ _ _
        (by split_ifs <;> exact h0) (by split_ifs <;> exact h1) hS

theorem c3_pulse_delay_range_witness :
    0 ≤ (update cfgC3 5 wC3).ls.currentPulseDelay ∧
    (update cfgC3 5 wC3).ls.currentPulseDelay ≤ cfgC3.initialPulseDelayUS :=
  c3_pulse_delay_range cfgC3 5 wC3 (by decide) (by decide) (by decide)

lemma missAdjust_dir (cfg : Config) (ls1 : Leadscrew) (A : ℚ) :
    (missAdjust cfg ls1 A).currentDirection = ls1.currentDirection := by
  simp only [missAdjust]
  split_ifs <;> rfl

lemma missAdjust_lpm (cfg : Config) (ls1 : Leadscrew) (A : ℚ) :
    (missAdjust cfg ls1 A).lastPulseMicros = ls1.lastPulseMicros := by
  simp only [missAdjust]
  split_ifs <;> rfl

lemma pulseBlock_dir (cfg : Config) (w : World) (positionError : ℤ)
    (nextDirection : LeadscrewDirection) (A : ℚ) (ls2 : Leadscrew) (pins2 : Pins) :
    (pulseBlock cfg w positionError nextDirection A ls2 pins2).ls.currentDirection =
      ls2.currentDirection := by
  simp only [pulseBlock]
  split_ifs <;> rfl

lemma pulseBlock_lpm (cfg : Config) (w : World) (positionError : ℤ)
    (nextDirection : LeadscrewDirection) (A : ℚ) (ls2 : Leadscrew) (pins2 : Pins) :
    (pulseBlock cfg w positionError nextDirection A ls2 pins2).ls.lastPulseMicros = 0 := by
  simp only [pulseBlock]
  split_ifs <;> rfl

lemma pulseBlock_pins (cfg : Config) (w : World) (positionError : ℤ)
    (nextDirection : LeadscrewDirection) (A : ℚ) (ls2 : Leadscrew) (pins2 : Pins) :
    (pulseBlock cfg w positionError nextDirection A ls2 pins2).pins = pins2 := by
  simp only [pulseBlock]

lemma sendPulse_dirWrites (p : Pins) : ((sendPulse p).2).dirWrites = p.dirWrites := by
  simp only [sendPulse]
  split_ifs <;> rfl

lemma enabledTail_pins_cases (cfg : Config) (w : World) (positionError : ℤ)
    (nextDirection : LeadscrewDirection) (ls1 : Leadscrew) (pins1 : Pins) :
    (enabledTail cfg w positionError nextDirection ls1 pins1).pins = pins1 ∨
    (enabledTail cfg w positionError nextDirection ls1 pins1).pins = (sendPulse pins1).2 := by
  simp only [enabledTail]
  split_ifs
  · left; rfl
  · left; rfl
  · right
    rw [pulseBlock_pins]
  · right; rfl

lemma enabledTail_dirWrites (cfg : Config) (w : World) (positionError : ℤ)
    (nextDirection : LeadscrewDirection) (ls1 : Leadscrew) (pins1 : Pins) :
    (enabledTail cfg w positionError nextDirection ls1 pins1).pins.dirWrites =
      pins1.dirWrites := by
  rcases enabledTail_pins_cases cfg w positionError nextDirection ls1 pins1 with h | h <;>
    rw [h]
  exact sendPulse_dirWrites pins1

lemma enabledTail_dir (cfg : Config) (w : World) (positionError : ℤ)
    (nextDirection : LeadscrewDirection) (ls1 : Leadscrew) (pins1 : Pins) :
    (enabledTail cfg w positionError nextDirection ls1 pins1).ls.currentDirection =
      ls1.currentDirection := by
  rcases enabledTail_ls_cases cfg w positionError nextDirection ls1 pins1 with h | h <;>
    rw [h]
  · exact missAdjust_dir cfg ls1 _
  · rw [pulseBlock_dir]
    exact missAdjust_dir cfg ls1 _

lemma enabledTail_lpm (cfg : Config) (w : World) (positionError : ℤ)
    (nextDirection : LeadscrewDirection) (ls1 : Leadscrew) (pins1 : Pins) :
    (enabledTail cfg w positionError nextDirection ls1 pins1).ls.lastPulseMicros =
      ls1.lastPulseMicros ∨
    (enabledTail cfg w positionError nextDirection ls1 pins1).ls.lastPulseMicros = 0 := by
  rcases enabledTail_ls_cases cfg w positionError nextDirection ls1 pins1 with h | h <;>
    rw [h]
  · left
    exact missAdjust_lpm cfg ls1 _
  · right
    exact pulseBlock_lpm cfg w _ _ _ _ _

/-- C8: in an ENABLED tick with `positionError ≠ 0`, the direction pin is
written (1 for RIGHT when the error is positive, 0 for LEFT otherwise), the
direction latched, and `lastPulseMicros` reset to 0 exactly when
`currentPulseDelay == INITIAL_PULSE_DELAY_US`; when `currentPulseDelay` is
below the initial delay the direction pin is not written and
`currentDirection` does not change. -/
theorem c8_direction_latch (cfg : Config) (lead : ℤ) (w : World)
    (hm : w.gs.motionMode = .ENABLED) (hz : getPositionError w.ls lead ≠ 0) :
    (w.ls.currentPulseDelay = cfg.initialPulseDelayUS →
      (update cfg lead w).pins.dirWrites =
        w.pins.dirWrites ++ [if getPositionError w.ls lead > 0 then 1 else 0] ∧
      (update cfg lead w).ls.currentDirection =
        (if getPositionError w.ls lead > 0 then LeadscrewDirection.RIGHT
         else LeadscrewDirection.LEFT) ∧
      (update cfg lead w).ls.lastPulseMicros = 0) ∧
    (w.ls.currentPulseDelay < cfg.initialPulseDelayUS →
      (update cfg lead w).pins.dirWrites = w.pins.dirWrites ∧
      (update cfg lead w).ls.currentDirection = w.ls.currentDirection) := by
  constructor
  · intro hd
    rw [update_enabled_ne cfg lead w hm hz]
    simp only [if_pos hd]
    refine ⟨?_, ?_, ?_⟩
    · rw [enabledTail_dirWrites]
      rfl
    · rw [enabledTail_dir]
    · rcases enabledTail_lpm cfg w (getPositionError w.ls lead) _ _ _ with h | h <;> rw [h]
  · intro hlt
    rw [update_enabled_ne cfg lead w hm hz]
    simp only [if_neg (ne_of_lt hlt)]
    exact ⟨enabledTail_dirWrites cfg w _ _ _ _, enabledTail_dir cfg w _ _ _ _⟩

/-- C7: on a completed ENABLED pulse (not at rest, on schedule within one
quantum, step pin high so `sendPulse` returns true), the new pulse delay is
the old one plus `accelChange` (decelerate) exactly when
`|positionError| - stoppingDistanceInPulses ≤ 0` or `nextDirection ≠
currentDirection`, and minus `accelChange` (accelerate) otherwise, then
clamped; the configured soft-stop positions (arbitrary in `w`) do not enter
the predicate. -/
theorem c7_decel_predicate (cfg : Config) (lead : ℤ) (w : World)
    (hm : w.gs.motionMode = .ENABLED) (hz : getPositionError w.ls lead ≠ 0)
    (hdelay : w.ls.currentPulseDelay ≠ cfg.initialPulseDelayUS)
    (hlo : w.ls.currentPulseDelay ≤ (w.ls.lastPulseMicros : ℚ))
    (hhi : (w.ls.lastPulseMicros : ℚ) ≤ w.ls.currentPulseDelay + cfg.pulseDelayStepUS)
    (hpin : w.pins.stepPin = 1) :
    (update cfg lead w).ls.currentPulseDelay =
      clampDelay cfg
        (if |getPositionError w.ls lead| -
            stoppingDistance cfg w.ls.currentPulseDelay
              (accelChangeOf cfg w.ls.lastPulseMicros) ≤ 0 ∨
            (if getPositionError w.ls lead > 0 then LeadscrewDirection.RIGHT
             else LeadscrewDirection.LEFT) ≠ w.ls.currentDirection then
          w.ls.currentPulseDelay + accelChangeOf cfg w.ls.lastPulseMicros
        else w.ls.currentPulseDelay - accelChangeOf cfg w.ls.lastPulseMicros) := by
  have hmiss : missAdjust cfg w.ls (accelChangeOf cfg w.ls.lastPulseMicros) = w.ls := by
    simp only [missAdjust]
    rw [if_neg]
    rintro ⟨hgt, -⟩
    linarith
  have hsp : (sendPulse w.pins).1 = true := by
    simp [sendPulse, hpin]
  rw [update_enabled_ne cfg lead w hm hz]
  simp only [if_neg hdelay, enabledTail, hmiss, if_neg hz, if_neg (not_lt.mpr hlo), hsp,
    if_true]
  rw [pulseBlock_delay]

theorem c7_decel_predicate_witness :
    (update cfgC7 5 wC7).ls.currentPulseDelay = 10 := by
  have he : getPositionError wC7.ls 5 = 5 := by
    rw [getPositionError_ratio_one wC7.ls 5 rfl]
    decide
  have h := c7_decel_predicate cfgC7 5 wC7 rfl (by rw [he]; decide) (by decide)
    (by norm_num [wC7]) (by norm_num [wC7, cfgC7]) rfl
  rw [h, he, show wC7.ls.currentPulseDelay = 0 from rfl,
    show wC7.ls.lastPulseMicros = 0 from rfl,
    show wC7.ls.currentDirection = LeadscrewDirection.RIGHT from rfl]
  have hA : accelChangeOf cfgC7 0 = 10 := by
    simp [accelChangeOf, cfgC7]
  rw [hA]
  have hsd : stoppingDistance cfgC7 0 10 = 100 := by
    rw [stoppingDistance,
      show (cfgC7.initialPulseDelayUS - 0) / 10 = ((100 : ℤ) : ℚ) by norm_num [cfgC7],
      ratTrunc_intCast]
  rw [hsd]
  norm_num [clampDelay, cfgC7]

theorem c8_direction_latch_witness :
    (update cfgC8 5 wC8).pins.dirWrites = [1] ∧
    (update cfgC8 5 wC8).ls.currentDirection = LeadscrewDirection.RIGHT ∧
    (update cfgC8 5 wC8).ls.lastPulseMicros = 0 := by
  have he : getPositionError wC8.ls 5 = 5 := by
    rw [getPositionError_ratio_one wC8.ls 5 rfl]
    decide
  obtain ⟨h1, -⟩ := c8_direction_latch cfgC8 5 wC8 rfl (by rw [he]; decide)
  obtain ⟨ha, hb, hc⟩ := h1 rfl
  rw [he] at ha hb
  refine ⟨?_, ?_, hc⟩
  · simpa using ha
  · simpa using hb
